import Mathlib

/-!
Verification of the License Record Store and Status-Transition Engine of the
Bhopal Police weapon-license tracker (src/police_weapon_tracker.py).

The program keeps one in-memory table of license records (a pandas dataframe
held in `st.session_state.df`) and an append-only list of notification events
(`st.session_state.notifications_sent`).  The definitions below are a shallow
embedding of that code: each cell value is a string, a missing cell (pandas
NaN) is `Option.none`, and the dataframe is a `List` of records in row order.
Definitions whose doc comment starts with `Modelled from the spec` follow the
specification's words instead of the source and exist only to be compared
with the source behaviour.
-/

namespace WeaponTracker

/-- One row of the license table.  The column set is the one the program
reads (`Name, License_No, Area, Police_Station, Address, Gun_Type,
Weapon_Model, Issue_Date, Expiry_Date, Status, Mobile, Gender, DOB,
Remarks`).  `name` is `Option String` because the name filter at line 274
treats a missing (NaN) name specially (`na=False`); every other field is kept
as the raw cell string. -/
structure Record where
  name : Option String
  license_no : String
  area : String
  police_station : String
  address : String
  gun_type : String
  weapon_model : String
  issue_date : String
  expiry_date : String
  status : String
  mobile : String
  gender : String
  dob : String
  remarks : String
deriving DecidableEq

/-- One entry of `st.session_state.notifications_sent`, as built by
`send_notification_simulation` (lines 94-100).  The timestamp
(`datetime.now()`) is threaded in as an abstract `Nat`. -/
structure Notification where
  mobile : String
  name : Option String
  message : String
  timestamp : Nat
  status : String
deriving DecidableEq

/-- The keys of the `messages` dict in `send_notification_simulation`
(lines 88-92): `'collection'`, `'reminder'`, `'return'`. -/
inductive MessageType where
  | collection : MessageType
  | reminder : MessageType
  | returnNotice : MessageType
deriving DecidableEq

/-- How a Python f-string renders a cell that may be NaN: a real string
renders as itself, NaN renders as the text `nan`. -/
def pyStr (o : Option String) : String :=
  match o with
  | some s => s
  | none => "nan"

/-- The `'collection'` template of `send_notification_simulation` (line 89),
parameterized by the rendered name, the selected station and the deadline. -/
def collectionMessage (name station deadline : String) : String :=
  "Dear " ++ name ++ ", As per government orders, please submit your licensed weapon to " ++
    station ++ " by " ++ deadline ++ ". Contact: 0755-XXX-XXXX. - Bhopal Police"

/-- The `'reminder'` template (line 90). -/
def reminderMessage (name station deadline : String) : String :=
  "Reminder: " ++ name ++ ", your weapon submission deadline is approaching (" ++ deadline ++
    "). Please visit " ++ station ++ " immediately. - Bhopal Police"

/-- The `'return'` template (line 91). -/
def returnNoticeMessage (name station return_date : String) : String :=
  "Dear " ++ name ++ ", you may collect your submitted weapon from " ++ station ++ " after " ++
    return_date ++ ". Bring ID proof. - Bhopal Police"

/-- `send_notification_simulation(mobile, name, message_type)` (lines 86-100).
The session values `selected_station`, `deadline`, `return_date` and the
clock are passed explicitly.  It always returns an event with status
`Sent`. -/
def send_notification_simulation (mobile : String) (name : Option String)
    (message_type : MessageType) (selected_station deadline return_date : String)
    (now : Nat) : Notification :=
  { mobile := mobile
    name := name
    message :=
      match message_type with
      | .collection => collectionMessage (pyStr name) selected_station deadline
      | .reminder => reminderMessage (pyStr name) selected_station deadline
      | .returnNotice => returnNoticeMessage (pyStr name) selected_station return_date
    timestamp := now
    status := "Sent" }

/-- The whole mutable session state: the dataframe and the notification
log. -/
structure AppState where
  df : List Record
  notifications_sent : List Notification
deriving DecidableEq

/-- The filter controls of `create_weapon_management` (lines 249-259):
`none` stands for the `'All'` choice of a selectbox, and for an empty
search string. -/
structure FilterSpec where
  area : Option String
  status : Option String
  gun_type : Option String
  name_substring : Option String
deriving DecidableEq

/-- One pattern character matched against one text character under
`re.IGNORECASE`: the wildcard `.` matches anything but a newline, and any
other character matches up to case folding.  (Pattern characters other
than `.` are treated as literals here: patterns using further regex
constructs — classes, quantifiers, anchors, escapes — are outside this
embedding.) -/
def reCharMatches (p c : Char) : Bool :=
  if p = '.' then !(c == '\n') else p.toLower == c.toLower

/-- Does the pattern match a prefix of the text (Python `re.match` on the
literal-and-wildcard fragment)? -/
def matchesAt : List Char → List Char → Bool
  | [], _ => true
  | _ :: _, [] => false
  | p :: ps, c :: cs => reCharMatches p c && matchesAt ps cs

/-- Python `re.search` on the literal-and-wildcard fragment: the pattern
may match starting at any position of the text. -/
def reSearch : List Char → List Char → Bool
  | pat, [] => matchesAt pat []
  | pat, c :: rest => matchesAt pat (c :: rest) || reSearch pat rest

/-- The semantics of `Series.str.contains(pat, case=False)` used at line
274: pandas defaults to `regex=True`, so this is case-insensitive regex
search of the pattern in the name, modelled here for patterns built from
literal characters and the `.` wildcard. -/
def nameSearch (hay pat : String) : Bool :=
  reSearch pat.data hay.data

/-- The name predicate of line 274:
`df['Name'].str.contains(search_name, case=False, na=False)`.  The search
string is a regex pattern (pandas default `regex=True`); a missing (NaN)
name yields `false` (`na=False`), never an error. -/
def nameMatches (r : Record) (sub : String) : Bool :=
  match r.name with
  | none => false
  | some n => nameSearch n sub

/-- Line 264-265: keep rows whose `Area` equals the selection, unless the
selection is `'All'`. -/
def filterByArea (rs : List Record) (o : Option String) : List Record :=
  match o with
  | none => rs
  | some v => rs.filter (fun r => r.area == v)

/-- Line 267-268: keep rows whose `Status` equals the selection, unless the
selection is `'All'`. -/
def filterByStatus (rs : List Record) (o : Option String) : List Record :=
  match o with
  | none => rs
  | some v => rs.filter (fun r => r.status == v)

/-- Line 270-271: keep rows whose `Gun_Type` equals the selection, unless
the selection is `'All'`. -/
def filterByGunType (rs : List Record) (o : Option String) : List Record :=
  match o with
  | none => rs
  | some v => rs.filter (fun r => r.gun_type == v)

/-- Line 273-274: keep rows whose name contains the search string, unless
the search box is empty. -/
def filterByName (rs : List Record) (o : Option String) : List Record :=
  match o with
  | none => rs
  | some s => rs.filter (fun r => nameMatches r s)

/-- The filter cascade of lines 262-274: the four reassignments of
`filtered_df` in source order (area, status, gun type, name). -/
def applyFilters (rs : List Record) (f : FilterSpec) : List Record :=
  filterByName
    (filterByGunType (filterByStatus (filterByArea rs f.area) f.status) f.gun_type)
    f.name_substring

/-- The mask assignment of lines 326 and 332:
`df.loc[df['License_No'] == license_no, 'Status'] = new_status`.
Every row whose key matches gets the new status; nothing else changes, and
a key with no match changes nothing.  There is no error channel. -/
def updateStatus (rs : List Record) (license_no new_status : String) : List Record :=
  rs.map (fun r => if r.license_no = license_no then { r with status := new_status } else r)

/-- The same mutation lifted to the session state: only `df` is touched
(lines 326 and 332 assign into `st.session_state.df`). -/
def markStatus (s : AppState) (license_no new_status : String) : AppState :=
  { s with df := updateStatus s.df license_no new_status }

/-- Line 324: the `Mark Submitted` button is rendered only when the row's
status is `Active`. -/
def markSubmittedShown (r : Record) : Bool :=
  r.status == "Active"

/-- Line 330: the `Mark Returned` button is rendered only when the row's
status is `Submitted`. -/
def markReturnedShown (r : Record) : Bool :=
  r.status == "Submitted"

/-- Error taxonomy of spec section 7 for status updates. -/
inductive UpdateError where
  | NotFound : UpdateError
  | InvalidTransition : UpdateError
  | AmbiguousKey : UpdateError
deriving DecidableEq

/-- Modelled from the spec: `update_status(license_no, new_status)` as the
specification words it — fails with `NotFound` when no row has the key,
fails with `InvalidTransition` unless every matching row is in the matching
source state of one of the two exposed transitions (`Active -> Submitted`,
`Submitted -> Active`).  This definition exists only to be compared with
the source's `updateStatus`. -/
def updateStatusSpec (rs : List Record) (license_no new_status : String) :
    Except UpdateError (List Record) :=
  if rs.all (fun r => !(r.license_no == license_no)) then
    .error .NotFound
  else if new_status = "Submitted" then
    if rs.all (fun r => !(r.license_no == license_no) || r.status == "Active") then
      .ok (updateStatus rs license_no new_status)
    else
      .error .InvalidTransition
  else if new_status = "Active" then
    if rs.all (fun r => !(r.license_no == license_no) || r.status == "Submitted") then
      .ok (updateStatus rs license_no new_status)
    else
      .error .InvalidTransition
  else
    .error .InvalidTransition

/-- The recipient filter of the notification panel (lines 375-378): rows
whose area is among the selected areas and whose status is `Active`. -/
def bulkFilter (rs : List Record) (selected_areas : List String) : List Record :=
  rs.filter (fun r => selected_areas.contains r.area && r.status == "Active")

/-- The `Send Bulk Notifications` action (lines 382-402): one
`'collection'` event per filtered row, in row order, extended onto the log.
`message_type` is the value of the `Message Type` selectbox (line 356); the
source never reads it when sending, so it is an unused parameter here
too. -/
def sendBulkNotifications (s : AppState) (message_type : MessageType)
    (selected_areas : List String) (selected_station deadline return_date : String)
    (now : Nat) : AppState :=
  let _ := message_type
  let notifications :=
    (bulkFilter s.df selected_areas).map
      (fun r => send_notification_simulation r.mobile r.name .collection
        selected_station deadline return_date now)
  { s with notifications_sent := s.notifications_sent ++ notifications }

/-- The per-record `Send Notice` button (lines 315-321): appends a single
`'collection'` event for that row to the log. -/
def sendNoticeAction (s : AppState) (r : Record)
    (selected_station deadline return_date : String) (now : Nat) : AppState :=
  { s with
      notifications_sent :=
        s.notifications_sent ++
          [send_notification_simulation r.mobile r.name .collection
            selected_station deadline return_date now] }

/-- Age as computed at line 222: days between `DOB` and now, floor-divided
by 365 (Python `//`). -/
def computeAge (daysSinceDob : Int) : Int :=
  Int.fdiv daysSinceDob 365

/-- The age-bucket classifier of lines 223-225:
`pd.cut(age, bins=[20, 30, 40, 50, 60, 100], labels=['21-30', '31-40',
'41-50', '51-60', '60+'], right=False)` — left-closed right-open intervals;
an age outside `[20, 100)` gets no bucket (NaN). -/
def ageGroup (age : Int) : Option String :=
  if 20 ≤ age ∧ age < 30 then some "21-30"
  else if 30 ≤ age ∧ age < 40 then some "31-40"
  else if 40 ≤ age ∧ age < 50 then some "41-50"
  else if 50 ≤ age ∧ age < 60 then some "51-60"
  else if 60 ≤ age ∧ age < 100 then some "60+"
  else none

/-- A tabular source: a header row and data rows of cell strings. -/
structure Table where
  header : List String
  rows : List (List String)
deriving DecidableEq

/-- The column set the program expects (the message at line 503 and every
column access in the source). -/
def requiredColumns : List String :=
  ["Name", "License_No", "Area", "Police_Station", "Address", "Gun_Type",
   "Weapon_Model", "Issue_Date", "Expiry_Date", "Status", "Mobile", "Gender",
   "DOB", "Remarks"]

/-- `load_data` (lines 76-84): `pd.read_csv` on the well-known file; a
missing file (`FileNotFoundError`) yields `None`.  The parsed table is kept
as-is — the source performs no schema validation. -/
def load_data (file : Option Table) : Option Table :=
  match file with
  | none => none
  | some t => some t

/-- Error taxonomy of spec section 7 for loading. -/
inductive LoadError where
  | NotFound : LoadError
  | MalformedSchema : LoadError
deriving DecidableEq

/-- Modelled from the spec: `load(source)` as the specification words it —
fails with `NotFound` when the source is missing and with
`MalformedSchema` when any required column is absent.  This definition
exists only to be compared with the source's `load_data`. -/
def loadSpec (file : Option Table) : Except LoadError Table :=
  match file with
  | none => .error .NotFound
  | some t =>
      if requiredColumns.all (fun c => t.header.contains c) then .ok t
      else .error .MalformedSchema

/-- Looks a cell up by column name, as `row[col]` does on a dataframe row:
the position of `col` in the header indexes into the row. -/
def cellAt (header row : List String) (col : String) : Option String :=
  (header.indexOf? col).bind (fun i => row.get? i)

/-- A cell rendered as a plain string (missing -> empty). -/
def cellStr (header row : List String) (col : String) : String :=
  (cellAt header row col).getD ""

/-- Reads one dataframe row into a `Record` by column name.  An empty
`Name` cell is NaN (`none`), matching `pd.read_csv`, which parses an empty
cell as NaN. -/
def rowToRecord (header row : List String) : Record :=
  { name := (let s := cellStr header row "Name"; if s = "" then none else some s)
    license_no := cellStr header row "License_No"
    area := cellStr header row "Area"
    police_station := cellStr header row "Police_Station"
    address := cellStr header row "Address"
    gun_type := cellStr header row "Gun_Type"
    weapon_model := cellStr header row "Weapon_Model"
    issue_date := cellStr header row "Issue_Date"
    expiry_date := cellStr header row "Expiry_Date"
    status := cellStr header row "Status"
    mobile := cellStr header row "Mobile"
    gender := cellStr header row "Gender"
    dob := cellStr header row "DOB"
    remarks := cellStr header row "Remarks" }

/-- Reads a whole table into the record list, row order preserved. -/
def tableToStore (t : Table) : List Record :=
  t.rows.map (rowToRecord t.header)

/-- Serializes one record back to a row in schema column order, as
`DataFrame.to_csv(index=False)` writes it (a NaN name becomes an empty
cell). -/
def recordToRow (r : Record) : List String :=
  [r.name.getD "", r.license_no, r.area, r.police_station, r.address, r.gun_type,
   r.weapon_model, r.issue_date, r.expiry_date, r.status, r.mobile, r.gender,
   r.dob, r.remarks]

/-- The export of line 289: `filtered_df.to_csv(index=False)` — the same
column names in the same order, one row per record, record order
preserved. -/
def exportTable (rs : List Record) : Table :=
  { header := requiredColumns, rows := rs.map recordToRow }

/-- The five dashboard metrics of lines 120-138. -/
structure Metrics where
  total : Nat
  active : Nat
  expired : Nat
  submitted : Nat
  revoked : Nat
deriving DecidableEq

/-- Count of rows in a given status, as `len(df[df['Status'] == v])`. -/
def countStatus (rs : List Record) (v : String) : Nat :=
  (rs.filter (fun r => r.status == v)).length

/-- `create_dashboard` (lines 102-138): renders nothing when the store is
absent (the early `return` at line 104), otherwise the five metrics. -/
def create_dashboard (df : Option (List Record)) : Option Metrics :=
  df.map (fun rs =>
    { total := rs.length
      active := countStatus rs "Active"
      expired := countStatus rs "Expired"
      submitted := countStatus rs "Submitted"
      revoked := countStatus rs "Revoked" })

/-- The view `create_weapon_management` derives (lines 237-276): renders
nothing when the store is absent, otherwise the filtered subsequence. -/
def create_weapon_management (df : Option (List Record)) (f : FilterSpec) :
    Option (List Record) :=
  df.map (fun rs => applyFilters rs f)

/-- The age histogram `create_analytics` derives (lines 160-235): renders
nothing when the store is absent, otherwise each row's age bucket. -/
def create_analytics (df : Option (List Record)) (ageOf : Record → Int) :
    Option (List (Option String)) :=
  df.map (fun rs => rs.map (fun r => ageGroup (ageOf r)))

/-- A sample active license holder, used to evaluate the theorems on
concrete inputs. -/
def sampleActive : Record :=
  { name := some "Ravi Kumar"
    license_no := "X1"
    area := "Kolar Road"
    police_station := "Kolar Road Police Station"
    address := "12 Kolar Road"
    gun_type := "Pistol"
    weapon_model := "MK-1"
    issue_date := "2020-01-01"
    expiry_date := "2030-01-01"
    status := "Active"
    mobile := "9876500000"
    gender := "Male"
    dob := "1980-05-01"
    remarks := "" }

/-- A sample expired record under a different key. -/
def sampleExpired : Record :=
  { sampleActive with
      name := some "Mohan Lal"
      license_no := "X2"
      status := "Expired"
      mobile := "9876500001" }

/-- A sample record sharing `sampleActive`'s key but in a different status:
a duplicate key, as a malformed upload could produce. -/
def sampleDupExpired : Record :=
  { sampleActive with
      name := some "Dup Holder"
      status := "Expired"
      mobile := "9876500002" }

/-- A sample record already in status `Submitted`. -/
def sampleSubmitted : Record :=
  { sampleActive with status := "Submitted" }

/-- A sample store with a duplicate key. -/
def sampleStore : List Record :=
  [sampleActive, sampleDupExpired, sampleExpired]

/-- A sample session state over `sampleStore` with an empty log. -/
def sampleState : AppState :=
  { df := sampleStore, notifications_sent := [] }

/-- A sample tabular source missing most required columns (no `Status`,
among others). -/
def sampleBadTable : Table :=
  { header := ["Name", "Area"], rows := [["Ravi Kumar", "Kolar Road"]] }

/-- Substring containment at the `String` level: `sub` occurs contiguously
inside `msg`. -/
def strContains (msg sub : String) : Prop :=
  ∃ p q : List Char, msg.data = p ++ (sub.data ++ q)

theorem string_data_append (a b : String) : (a ++ b).data = a.data ++ b.data :=
  rfl

theorem map_eq_self_of_mem {l : List Record} {g : Record → Record}
    (h : ∀ x ∈ l, g x = x) : l.map g = l := by
  induction l with
  | nil => rfl
  | cons a t ih =>
      simp only [List.map_cons]
      rw [h a (List.mem_cons_self a t), ih (fun x hx => h x (List.mem_cons_of_mem a hx))]

/-- C2 counterexample: the source's status mutation has no error channel.
On a nonexistent key it silently returns the store unchanged instead of
failing with `NotFound`, and on a record outside the matching source state
(here `Expired`) it silently applies the new status instead of failing with
`InvalidTransition` — in both cases diverging from the spec-modelled
engine `updateStatusSpec`. -/
theorem update_status_counterexample :
    updateStatus [sampleExpired] "X9" "Submitted" = [sampleExpired] ∧
    updateStatusSpec [sampleExpired] "X9" "Submitted" = Except.error UpdateError.NotFound ∧
    updateStatus [sampleExpired] "X2" "Submitted" =
      [{ sampleExpired with status := "Submitted" }] ∧
    updateStatusSpec [sampleExpired] "X2" "Submitted" =
      Except.error UpdateError.InvalidTransition :=
  ⟨by decide, rfl, by decide, rfl⟩

/-- C2 (amended): the source's `update_status` never fails: with no
matching key it is a silent no-op; the two exposed transitions are
restricted to records in the matching source state only by the UI, which
renders `Mark Submitted` exactly for `Active` rows and `Mark Returned`
exactly for `Submitted` rows. -/
theorem update_status_silent_no_error (rs : List Record) (license_no v : String)
    (h : ∀ r ∈ rs, r.license_no ≠ license_no) :
    updateStatus rs license_no v = rs ∧
    (∀ r : Record, markSubmittedShown r = true ↔ r.status = "Active") ∧
    (∀ r : Record, markReturnedShown r = true ↔ r.status = "Submitted") := by
  refine ⟨?_, fun r => ?_, fun r => ?_⟩
  · unfold updateStatus
    exact map_eq_self_of_mem (fun r hr => if_neg (h r hr))
  · simp [markSubmittedShown]
  · simp [markReturnedShown]

/-- C2 witness: the amended theorem evaluated on a concrete store and a key
absent from it. -/
theorem update_status_silent_no_error_witness :
    updateStatus [sampleExpired] "X9" "Active" = [sampleExpired] :=
  (update_status_silent_no_error [sampleExpired] "X9" "Active" (by decide)).1

/-- C3 (code evaluation): ages 45 and 61 go to the claimed buckets, but age
20 is assigned to bucket `21-30` rather than excluded — `pd.cut` with
`bins=[20, 30, 40, 50, 60, 100]` and `right=False` makes every interval
left-closed, so 20 is inside the first bin even though its label says
`21-30`.  A holder whose `DOB` lies exactly 7300 days in the past has
computed age 20 and lands in the histogram. -/
theorem age_bucket_eval :
    computeAge 7300 = 20 ∧
    ageGroup 45 = some "41-50" ∧
    ageGroup 61 = some "60+" ∧
    ageGroup 20 = some "21-30" := by
  decide

/-- C4 counterexample: a third call attempting `Submitted -> Submitted`
does not fail: the source's mask assignment rewrites the status to the
value it already has and reports nothing, diverging from the spec-modelled
engine, and the UI simply does not render `Mark Submitted` for a
`Submitted` row. -/
theorem status_roundtrip_counterexample :
    updateStatus [sampleSubmitted] "X1" "Submitted" = [sampleSubmitted] ∧
    updateStatusSpec [sampleSubmitted] "X1" "Submitted" =
      Except.error UpdateError.InvalidTransition ∧
    markSubmittedShown sampleSubmitted = false :=
  ⟨by decide, rfl, by decide⟩

/-- C4 (amended): for every store whose rows under the key are `Active`,
marking the key `Submitted` and then `Active` restores the store exactly
(the two exposed transitions are mutually inverse); after the first step the
UI no longer offers `Mark Submitted` for the key's rows, but a forced
`Submitted -> Submitted` mask assignment would succeed silently rather than
fail with `InvalidTransition`. -/
theorem status_roundtrip_amended (rs : List Record) (ln : String)
    (h : ∀ r ∈ rs, r.license_no = ln → r.status = "Active") :
    updateStatus (updateStatus rs ln "Submitted") ln "Active" = rs ∧
    ∀ r ∈ updateStatus rs ln "Submitted", r.license_no = ln →
      markSubmittedShown r = false := by
  constructor
  · unfold updateStatus
    rw [List.map_map]
    apply map_eq_self_of_mem
    intro r hr
    by_cases hl : r.license_no = ln
    · have hs := h r hr hl
      cases r
      simp_all
    · simp only [Function.comp_apply, if_neg hl]
  · intro r hr hl
    obtain ⟨x, hx, rfl⟩ := List.mem_map.mp hr
    by_cases hxl : x.license_no = ln
    · simp [if_pos hxl, markSubmittedShown]
    · rw [if_neg hxl] at hl
      exact absurd hl hxl

/-- C4 witness: the amended round trip evaluated on a concrete store. -/
theorem status_roundtrip_amended_witness :
    updateStatus (updateStatus [sampleActive] "X1" "Submitted") "X1" "Active" =
      [sampleActive] :=
  (status_roundtrip_amended [sampleActive] "X1" (by decide)).1

/-- C5 counterexample: `load_data` performs no schema validation — a
source missing most required columns (among them `Status`) loads
successfully instead of failing with `MalformedSchema` as the spec-modelled
loader does. -/
theorem load_no_schema_check_counterexample :
    load_data (some sampleBadTable) = some sampleBadTable ∧
    loadSpec (some sampleBadTable) = Except.error LoadError.MalformedSchema :=
  ⟨rfl, rfl⟩

/-- C5 (amended): `load_data` fails (yields an absent store) exactly when
the source file is missing, and otherwise returns the parsed table without
validating its columns; after a load failure every dependent view renders
as empty (a no-op) rather than crashing. -/
theorem load_failure_noop_amended :
    load_data none = none ∧
    (∀ t, load_data (some t) = some t) ∧
    loadSpec none = Except.error LoadError.NotFound ∧
    create_dashboard none = none ∧
    (∀ f, create_weapon_management none f = none) ∧
    (∀ g, create_analytics none g = none) :=
  ⟨rfl, fun _ => rfl, rfl, rfl, fun _ => rfl, fun _ => rfl⟩

/-- C6: bulk dispatch over the records whose area is among the selected
areas and whose status is `Active` leaves the store untouched and appends
exactly one event per such record, in row order, with that record's mobile
and name copied into the event; the filtered set contains exactly the
records satisfying both predicates. -/
theorem bulk_dispatch_events (s : AppState) (mt : MessageType)
    (areas : List String) (station deadline rd : String) (now : Nat) :
    (sendBulkNotifications s mt areas station deadline rd now).df = s.df ∧
    (sendBulkNotifications s mt areas station deadline rd now).notifications_sent =
      s.notifications_sent ++
        (bulkFilter s.df areas).map
          (fun r => send_notification_simulation r.mobile r.name .collection
            station deadline rd now) ∧
    ((sendBulkNotifications s mt areas station deadline rd now).notifications_sent).length =
      s.notifications_sent.length + (bulkFilter s.df areas).length ∧
    (∀ r : Record,
      (send_notification_simulation r.mobile r.name MessageType.collection
          station deadline rd now).mobile = r.mobile ∧
      (send_notification_simulation r.mobile r.name MessageType.collection
          station deadline rd now).name = r.name) ∧
    (∀ r ∈ bulkFilter s.df areas, areas.contains r.area = true ∧ r.status = "Active") ∧
    (∀ r ∈ s.df, areas.contains r.area = true → r.status = "Active" →
      r ∈ bulkFilter s.df areas) := by
  refine ⟨rfl, rfl, ?_, fun r => ⟨rfl, rfl⟩, fun r hr => ?_, fun r hr h1 h2 => ?_⟩
  · simp [sendBulkNotifications, bulkFilter]
  · have h' := List.mem_filter.mp hr
    have h2 := Bool.and_eq_true_iff.mp h'.2
    exact ⟨h2.1, eq_of_beq h2.2⟩
  · refine List.mem_filter.mpr ⟨hr, ?_⟩
    have h1' : r.area ∈ areas := by simpa using h1
    simp [h1', h2]

/-- C6 witness: the theorem evaluated on the sample state with one
matching recipient. -/
theorem bulk_dispatch_events_witness :
    (sendBulkNotifications sampleState MessageType.reminder ["Kolar Road"]
        "MP Nagar Police Station" "2024-01-15" "2024-02-15" 0).df = sampleState.df ∧
    (["Kolar Road"].contains sampleActive.area = true ∧ sampleActive.status = "Active") ∧
    sampleActive ∈ bulkFilter sampleState.df ["Kolar Road"] := by
  have h := bulk_dispatch_events sampleState MessageType.reminder ["Kolar Road"]
    "MP Nagar Police Station" "2024-01-15" "2024-02-15" 0
  exact ⟨h.1, h.2.2.2.2.1 sampleActive (by decide),
    h.2.2.2.2.2 sampleActive (by decide) (by decide) (by decide)⟩

/-- C7: dispatch of a collection notice is total, always yields an event
with status `Sent` addressed to the given recipient, and the rendered
message contains the recipient's name, the selected collection point and
the deadline as substrings. -/
theorem collection_notice_dispatch (mobile : String) (name : Option String)
    (station deadline rd : String) (now : Nat) :
    (send_notification_simulation mobile name .collection station deadline rd now).status =
      "Sent" ∧
    (send_notification_simulation mobile name .collection station deadline rd now).mobile =
      mobile ∧
    (send_notification_simulation mobile name .collection station deadline rd now).name =
      name ∧
    strContains
      (send_notification_simulation mobile name .collection station deadline rd now).message
      (pyStr name) ∧
    strContains
      (send_notification_simulation mobile name .collection station deadline rd now).message
      station ∧
    strContains
      (send_notification_simulation mobile name .collection station deadline rd now).message
      deadline := by
  refine ⟨rfl, rfl, rfl, ?_, ?_, ?_⟩
  · refine ⟨("Dear ").data,
      ((", As per government orders, please submit your licensed weapon to " ++ station ++
        " by " ++ deadline ++ ". Contact: 0755-XXX-XXXX. - Bhopal Police")).data, ?_⟩
    simp [send_notification_simulation, collectionMessage, string_data_append,
      List.append_assoc]
  · refine ⟨(("Dear " ++ pyStr name ++
        ", As per government orders, please submit your licensed weapon to ")).data,
      ((" by " ++ deadline ++ ". Contact: 0755-XXX-XXXX. - Bhopal Police")).data, ?_⟩
    simp [send_notification_simulation, collectionMessage, string_data_append,
      List.append_assoc]
  · refine ⟨(("Dear " ++ pyStr name ++
        ", As per government orders, please submit your licensed weapon to " ++ station ++
        " by ")).data,
      ((". Contact: 0755-XXX-XXXX. - Bhopal Police")).data, ?_⟩
    simp [send_notification_simulation, collectionMessage, string_data_append,
      List.append_assoc]

/-- Reading an exported row back by column name under the schema header
recovers the record, provided the name is not the empty string (an empty
cell is parsed as a missing value). -/
theorem rowToRecord_recordToRow (r : Record) (h : r.name ≠ some "") :
    rowToRecord requiredColumns (recordToRow r) = r := by
  cases r with
  | mk name license_no area police_station address gun_type weapon_model issue_date
      expiry_date status mobile gender dob remarks =>
    cases name with
    | none => rfl
    | some n =>
        have hn : n ≠ "" := fun e => h (by rw [e])
        show Record.mk (if n = "" then none else some n) license_no area police_station
          address gun_type weapon_model issue_date expiry_date status mobile gender dob
          remarks = Record.mk (some n) license_no area police_station address gun_type
          weapon_model issue_date expiry_date status mobile gender dob remarks
        rw [if_neg hn]

/-- C8: exporting the full unfiltered store emits the schema columns in
order, and reading the exported table back yields the very same store —
same record count, same field values, same order — for every store none of
whose records carries an empty-string name (an empty cell reloads as a
missing value). -/
theorem export_reload_roundtrip (rs : List Record) (h : ∀ r ∈ rs, r.name ≠ some "") :
    (exportTable rs).header = requiredColumns ∧
    tableToStore (exportTable rs) = rs := by
  refine ⟨rfl, ?_⟩
  unfold tableToStore exportTable
  simp only
  rw [List.map_map]
  exact map_eq_self_of_mem (fun r hr => rowToRecord_recordToRow r (h r hr))

/-- C8 witness: the round trip evaluated on the sample store. -/
theorem export_reload_roundtrip_witness :
    tableToStore (exportTable sampleStore) = sampleStore :=
  (export_reload_roundtrip sampleStore (by decide)).2

/-- C9: the status mutation keyed by `license_no` changes only the status
field of the rows whose key matches — all of them, when duplicates exist —
and leaves every other field of those rows, every other row, the record
count and the notification log unchanged. -/
theorem update_status_frame (s : AppState) (ln v : String) (i : Nat) (r : Record)
    (hr : s.df[i]? = some r) :
    (markStatus s ln v).notifications_sent = s.notifications_sent ∧
    (markStatus s ln v).df.length = s.df.length ∧
    (r.license_no = ln → (markStatus s ln v).df[i]? = some { r with status := v }) ∧
    (r.license_no ≠ ln → (markStatus s ln v).df[i]? = some r) := by
  refine ⟨rfl, by simp [markStatus, updateStatus], ?_, ?_⟩
  · intro hl
    simp [markStatus, updateStatus, List.getElem?_map, hr, if_pos hl]
  · intro hl
    simp [markStatus, updateStatus, List.getElem?_map, hr, if_neg hl]

/-- C9 witness: on the sample state, updating key `X1` rewrites the
duplicate row at index 1 (status only) and leaves the unrelated row at
index 2 and the log unchanged. -/
theorem update_status_frame_witness :
    (markStatus sampleState "X1" "Submitted").notifications_sent =
      sampleState.notifications_sent ∧
    (markStatus sampleState "X1" "Submitted").df.length = sampleState.df.length ∧
    (markStatus sampleState "X1" "Submitted").df[1]? =
      some { sampleDupExpired with status := "Submitted" } ∧
    (markStatus sampleState "X1" "Submitted").df[2]? = some sampleExpired := by
  have h1 := update_status_frame sampleState "X1" "Submitted" 1 sampleDupExpired (by decide)
  have h2 := update_status_frame sampleState "X1" "Submitted" 2 sampleExpired (by decide)
  exact ⟨h1.1, h1.2.1, h1.2.2.1 rfl, h2.2.2.2 (by decide)⟩

/-- C10: both event-producing paths — the per-record `Send Notice` button
and bulk dispatch — append events rendered from the `'collection'`
template only; the bulk action's result does not depend on the message
type selected in the panel, and a collection event's message is exactly the
collection template applied to the recipient. -/
theorem collection_template_only (s : AppState) (r : Record) (mt mt' : MessageType)
    (areas : List String) (station deadline rd : String) (now : Nat) :
    (sendNoticeAction s r station deadline rd now).notifications_sent =
      s.notifications_sent ++
        [send_notification_simulation r.mobile r.name .collection station deadline rd now] ∧
    (sendBulkNotifications s mt areas station deadline rd now).notifications_sent =
      s.notifications_sent ++
        (bulkFilter s.df areas).map
          (fun x => send_notification_simulation x.mobile x.name .collection
            station deadline rd now) ∧
    sendBulkNotifications s mt areas station deadline rd now =
      sendBulkNotifications s mt' areas station deadline rd now ∧
    (∀ mobile name,
      (send_notification_simulation mobile name .collection station deadline rd now).message =
        collectionMessage (pyStr name) station deadline) :=
  ⟨rfl, rfl, rfl, fun _ _ => rfl⟩

end WeaponTracker
